import Mathlib

/-
  Verification of the SecureLink real-time session and message-delivery
  synchronization engine against its natural-language specification.

  The definitions below are a shallow embedding of the relevant JavaScript /
  TypeScript source:
    * the local message store of the embedded StorageService class in
      src/src/screens/chat/ChatListScreen.js (getChatMessages, addChatMessage,
      cleanupOldMessages, updateMessageStatus);
    * the saveLocalMessage helper of src/src/hooks/useChat.js;
    * the WebSocketService client of src/unnamed/part_013 (send,
      flushMessageQueue, attemptReconnect, disconnect, heartbeat);
    * the express server of src/App.tsx (session registry, authenticate
      middleware, /api/auth/login, /api/chat/messages).

  Conventions of the embedding:
    * JavaScript timestamps (ISO strings / Date values) are modelled as
      integers (milliseconds since the epoch); the source always compares
      them through `new Date(x) - new Date(y)` or sorts by that difference.
    * A JavaScript field that may be null is an `Option`; `none` models null.
    * JavaScript string truthiness (null, undefined and "" are falsy) is
      modelled explicitly where the source relies on it.
    * Async storage round-trips are made explicit: each operation takes the
      currently persisted list and returns the list the operation persists.
-/

namespace SecureLink

/-- A stored chat message, with the fields that the source reads or writes.
Mirrors the record shape produced by `addChatMessage` / the server's
`/api/chat/send` handler: `id`, `localId` (the client dedup key, null for
messages sent without one), sender/recipient contact ids, `content`,
`timestamp`, `messageType` and `status`. -/
structure Msg where
  id : Option String
  localId : Option String
  senderContactId : String
  recipientContactId : String
  content : String
  timestamp : Int
  messageType : String
  status : String
deriving DecidableEq, Repr

/-- JavaScript truthiness of a possibly-null string: null/undefined and the
empty string are falsy. -/
def truthyStr : Option String → Bool
  | none => false
  | some s => s ≠ ""

/-- `StorageService.validateMessage` (ChatListScreen.js line 908): a message
must be an object with a non-empty string `content`; everything else is
accepted.  In the embedding the record shape is fixed, so only the content
check remains. -/
def validateMessageB (m : Msg) : Bool := m.content ≠ ""

/-- The ascending-timestamp comparison used by
`messages.sort((a, b) => new Date(a.timestamp) - new Date(b.timestamp))`. -/
def byTsLe (a b : Msg) : Prop := a.timestamp ≤ b.timestamp

instance : DecidableRel byTsLe := fun a b => Int.decLe a.timestamp b.timestamp

instance : IsTotal Msg byTsLe := ⟨fun a b => Int.le_total a.timestamp b.timestamp⟩

instance : IsTrans Msg byTsLe := ⟨fun _ _ _ h h' => Int.le_trans h h'⟩

/-- The descending comparison used by `cleanupOldMessages`:
`sort((a, b) => new Date(b.timestamp) - new Date(a.timestamp))`. -/
def byTsGe (a b : Msg) : Prop := b.timestamp ≤ a.timestamp

instance : DecidableRel byTsGe := fun a b => Int.decLe b.timestamp a.timestamp

instance : IsTotal Msg byTsGe := ⟨fun a b => Int.le_total b.timestamp a.timestamp⟩

instance : IsTrans Msg byTsGe := ⟨fun _ _ _ h h' => Int.le_trans h' h⟩

/-- Stable ascending sort by timestamp (JavaScript `Array.prototype.sort` is
stable, as is insertion sort). -/
def sortAsc (l : List Msg) : List Msg := l.insertionSort byTsLe

/-- Stable descending sort by timestamp. -/
def sortDesc (l : List Msg) : List Msg := l.insertionSort byTsGe

/-- `StorageService.getChatMessages` (ChatListScreen.js lines 1118-1141):
parse the persisted list, drop records failing `validateMessage`, and sort
ascending by timestamp. -/
def getChatMessages (persisted : List Msg) : List Msg :=
  sortAsc (persisted.filter validateMessageB)

/-- The argument of `addChatMessage`: a message object whose optional fields
may be absent (modelled `none`), in which case `addChatMessage` fills a
default.  `content` is required by `validateMessage`. -/
structure MsgIn where
  id : Option String
  senderContactId : Option String
  recipientContactId : Option String
  content : String
  timestamp : Option Int
  messageType : Option String
  status : Option String
  localId : Option String
deriving DecidableEq, Repr

/-- The `messageData` record built in `addChatMessage` (lines 1153-1163).
The object literal computes defaults and then spreads `...message` last, so
every field present on the argument wins over its default (in particular the
stored content is the raw, untrimmed `message.content`).  `genId` stands for
the freshly generated `msg_<Date.now()>_<random>` id and `now` for
`new Date().toISOString()`. -/
def messageData (contactId genId : String) (now : Int) (m : MsgIn) : Msg :=
  { id := some (m.id.getD genId)
  , localId := m.localId
  , senderContactId := m.senderContactId.getD ""
  , recipientContactId := m.recipientContactId.getD contactId
  , content := m.content
  , timestamp := m.timestamp.getD now
  , messageType := m.messageType.getD "text"
  , status := m.status.getD "sent" }

/-- The duplicate test of `addChatMessage` (lines 1166-1170): same `id`, or
equal `content` with timestamps less than 5000 ms apart. -/
def isDuplicate (m md : Msg) : Bool :=
  decide (m.id = md.id) ||
    (decide (m.content = md.content) &&
      decide ((m.timestamp - md.timestamp).natAbs < 5000))

/-- `Array.prototype.findIndex`, returning the index of the first element
satisfying the predicate. -/
def jsFindIndex (p : α → Bool) : List α → Option Nat
  | [] => none
  | a :: l => if p a then some 0 else (jsFindIndex p l).map (· + 1)

/-- The in-place update `messages[i] = { ...messages[i], ...messageData }`
(line 1174).  `messageData` carries every modelled field, so each modelled
field of the stored record is overwritten by the incoming value. -/
def mergeRecord (_old incoming : Msg) : Msg := incoming

/-- The high-water mark `MAX_MESSAGES_PER_CHAT` (line 855). -/
def MAX_MESSAGES_PER_CHAT : Nat := 1000

/-- The low-water mark `MESSAGE_CLEANUP_THRESHOLD` (line 857). -/
def MESSAGE_CLEANUP_THRESHOLD : Nat := 500

/-- What `cleanupOldMessages` (lines 1200-1218) itself writes to storage:
when the list exceeds the high-water mark, the 500 most recent messages
(sorted descending, take 500, then reversed back to ascending); otherwise it
writes nothing. -/
def cleanupWrite (messages : List Msg) : Option (List Msg) :=
  if MAX_MESSAGES_PER_CHAT < messages.length then
    some (((sortDesc messages).take MESSAGE_CLEANUP_THRESHOLD).reverse)
  else none

/-- The state of the `messages` array after `cleanupOldMessages` returns:
`Array.prototype.sort` mutates in place, so past the high-water mark the
caller's array is left sorted descending (and untrimmed — `slice` copies). -/
def cleanupMutated (messages : List Msg) : List Msg :=
  if MAX_MESSAGES_PER_CHAT < messages.length then sortDesc messages
  else messages

/-- `StorageService.addChatMessage` (lines 1143-1198), as the function from
the persisted list for the chat to the list the operation finally persists.
Steps, in source order: `validateMessage` (throws, modelled `none`, when the
content is empty); read the list back through `getChatMessages`; build
`messageData`; look for a duplicate with `findIndex`; either merge in place
or push; call `cleanupOldMessages` (whose own trimmed write is then
overwritten); finally persist the full `messages` array (line 1183). -/
def addChatMessage (persisted : List Msg) (contactId genId : String)
    (now : Int) (message : MsgIn) : Option (List Msg) :=
  if message.content = "" then none
  else
    let messages := getChatMessages persisted
    let md := messageData contactId genId now message
    let merged :=
      match jsFindIndex (fun m => isDuplicate m md) messages with
      | some i => messages.set i (mergeRecord (messages.getD i md) md)
      | none => messages ++ [md]
    some (cleanupMutated merged)

/-- `StorageService.updateMessageStatus` (lines 1237-1253): find the message
by id and overwrite its status unconditionally (`updatedAt` is not part of
the modelled record). -/
def updateMessageStatus (persisted : List Msg) (messageId : Option String)
    (status : String) : List Msg :=
  let messages := getChatMessages persisted
  match jsFindIndex (fun m => decide (m.id = messageId)) messages with
  | some i =>
    match messages.get? i with
    | some m => messages.set i { m with status := status }
    | none => messages
  | none => messages

/-- `saveLocalMessage` of src/src/hooks/useChat.js (lines 256-286), acting on
the stored list for the chat partner's key.  A message "exists" when some
stored record has the same `id`, or has a truthy `localId` equal to the
incoming one.  A new message is pushed and the list re-sorted ascending;
otherwise, when the incoming message has a truthy `id`, every stored record
whose `localId` equals (`===`) the incoming `localId` — including
`null === null` — is replaced by the incoming message; otherwise nothing is
written. -/
def saveLocalMessage (store : List Msg) (message : Msg) : List Msg :=
  let exist := store.any (fun m =>
    decide (m.id = message.id) ||
      (truthyStr m.localId && decide (m.localId = message.localId)))
  if !exist then sortAsc (store ++ [message])
  else if truthyStr message.id then
    store.map (fun m => if m.localId = message.localId then message else m)
  else store

/-! ### WebSocketService (src/unnamed/part_013) -/

/-- `this.maxReconnectAttempts` (constructor, line 9). -/
def maxReconnectAttempts : Nat := 5

/-- `this.reconnectInterval` in milliseconds (constructor, line 10). -/
def reconnectInterval : Nat := 1000

/-- Ping period of `startHeartbeat` (line 218): one ping every 60000 ms. -/
def heartbeatIntervalMs : Nat := 60000

/-- Pong deadline of `startHeartbeat` (line 216): 30000 ms. -/
def heartbeatTimeoutMs : Nat := 30000

/-- Client connection state.  `wsOpen` models
`this.ws && this.ws.readyState === WebSocket.OPEN`; `transmitted` is the
(ghost) list of frames actually written to the socket, in order;
`pendingReconnectDelay` is the (ghost) delay of the timer scheduled by the
most recent `attemptReconnect`, `none` when no reconnect timer was armed. -/
structure WSState where
  reconnectAttempts : Nat
  isConnected : Bool
  isConnecting : Bool
  messageQueue : List String
  wsOpen : Bool
  heartbeatRunning : Bool
  transmitted : List String
  pendingReconnectDelay : Option Nat
deriving DecidableEq, Repr

/-- `WebSocketService.send` (lines 107-121): write to the socket when it is
open, otherwise append to `messageQueue`; returns the source's boolean. -/
def wsSend (s : WSState) (data : String) : WSState × Bool :=
  if s.wsOpen then ({ s with transmitted := s.transmitted ++ [data] }, true)
  else ({ s with messageQueue := s.messageQueue ++ [data] }, false)

/-- Submitting a sequence of outbound frames, ignoring the returned flags. -/
def wsSendAll (s : WSState) (msgs : List String) : WSState :=
  msgs.foldl (fun st m => (wsSend st m).1) s

/-- `WebSocketService.flushMessageQueue` (lines 193-203): copy the queue,
clear it, then re-submit each copied frame through `send` in order. -/
def flushMessageQueue (s : WSState) : WSState :=
  if 0 < s.messageQueue.length then
    wsSendAll { s with messageQueue := [] } s.messageQueue
  else s

/-- The `onopen` handler (lines 37-46): mark connected, zero the attempt
counter, start the heartbeat, flush the queue.  When `onopen` fires the
socket's `readyState` is `OPEN`. -/
def onopen (s : WSState) : WSState :=
  flushMessageQueue
    { s with isConnected := true, isConnecting := false,
             reconnectAttempts := 0, wsOpen := true, heartbeatRunning := true }

/-- `WebSocketService.attemptReconnect` (lines 172-191): past the cap, emit
`max_reconnect_attempts` and arm no timer; otherwise increment the counter
and arm a timer with `reconnectInterval * 2 ^ (attempts - 1)`. -/
def attemptReconnect (s : WSState) : WSState :=
  if maxReconnectAttempts ≤ s.reconnectAttempts then
    { s with pendingReconnectDelay := none }
  else
    let n := s.reconnectAttempts + 1
    { s with reconnectAttempts := n,
             pendingReconnectDelay := some (reconnectInterval * 2 ^ (n - 1)) }

/-- The `onclose` handler (lines 65-76): mark disconnected, stop the
heartbeat, and attempt to reconnect only when the close code is neither 1000
nor 1001. -/
def onclose (s : WSState) (code : Nat) : WSState :=
  let s1 := { s with isConnected := false, isConnecting := false,
                     wsOpen := false, heartbeatRunning := false }
  if code ≠ 1000 ∧ code ≠ 1001 then attemptReconnect s1 else s1

/-- `WebSocketService.disconnect` (lines 92-105): stop the heartbeat, close
the socket with code 1000 ("Client disconnect"), null the socket, and reset
`isConnected`, `isConnecting`, `reconnectAttempts` and the queue. -/
def wsDisconnect (s : WSState) : WSState :=
  { s with heartbeatRunning := false, wsOpen := false,
           isConnected := false, isConnecting := false,
           reconnectAttempts := 0, messageQueue := [] }

/-- A missed pong (lines 213-216): the heartbeat timeout fires and calls
`disconnect()`, which closes the socket with code 1000; the subsequent close
event then runs `onclose` with that code. -/
def heartbeatTimeoutFires (s : WSState) : WSState :=
  onclose (wsDisconnect s) 1000

/-- A client mid-reconnect: three failed attempts, not connected. -/
def reconnectingExample : WSState :=
  { reconnectAttempts := 3, isConnected := false, isConnecting := false,
    messageQueue := [], wsOpen := false, heartbeatRunning := false,
    transmitted := [], pendingReconnectDelay := some 4000 }

/-- A client that is offline with one frame already queued and one frame
transmitted earlier. -/
def offlineExample : WSState :=
  { reconnectAttempts := 0, isConnected := false, isConnecting := false,
    messageQueue := ["q1"], wsOpen := false, heartbeatRunning := false,
    transmitted := ["t0"], pendingReconnectDelay := none }

/-- A connected (`Active`) client with a running heartbeat. -/
def activeExample : WSState :=
  { reconnectAttempts := 0, isConnected := true, isConnecting := false,
    messageQueue := [], wsOpen := true, heartbeatRunning := true,
    transmitted := [], pendingReconnectDelay := none }

/-! ### Server: session registry and HTTP handlers (src/App.tsx) -/

/-- A registry entry of `activeSessions`
(`{ token, contactId, deviceId, socketId, lastActivity }`, line 110). -/
structure Session where
  token : String
  contactId : String
  deviceId : String
  socketId : Option String
  lastActivity : Int
deriving DecidableEq, Repr

/-- JavaScript `Map.get`. -/
def mapGet (m : List (String × α)) (k : String) : Option α :=
  match m with
  | [] => none
  | (k', v) :: rest => if k' = k then some v else mapGet rest k

/-- JavaScript `Map.set`: replace in place when the key is present (keeping
insertion order), otherwise append. -/
def mapSet (m : List (String × α)) (k : String) (v : α) : List (String × α) :=
  if m.any (fun p => p.1 = k) then
    m.map (fun p => if p.1 = k then (k, v) else p)
  else m ++ [(k, v)]

/-- JavaScript `Map.delete`. -/
def mapDelete (m : List (String × α)) (k : String) : List (String × α) :=
  m.filter (fun p => p.1 ≠ k)

/-- The server's shared mutable state: `activeSessions : userId → Session`
and `socketToUser : socketId → userId` (lines 110-111). -/
structure ServerState where
  activeSessions : List (String × Session)
  socketToUser : List (String × String)
deriving DecidableEq, Repr

/-- Outcome of `POST /api/auth/login`. -/
inductive LoginResult
  | ok (userId token contactId : String)
  | badRequest
  | invalidToken
deriving DecidableEq, Repr

/-- `POST /api/auth/login` (App.tsx lines 174-231).  `verify` stands for
`admin.auth().verifyIdToken`, mapping a Firebase id token to the uid it
authenticates (or failing).  An existing session for the uid is invalidated:
its socket, when present, is notified and disconnected and removed from
`socketToUser`; then the uid's registry entry is unconditionally replaced by
the new session (socketId null, fresh lastActivity). -/
def login (verify : String → Option String) (st : ServerState)
    (idToken contactId deviceId : String) (now : Int) :
    ServerState × LoginResult :=
  if idToken = "" ∨ contactId = "" ∨ deviceId = "" then (st, .badRequest)
  else
    match verify idToken with
    | none => (st, .invalidToken)
    | some userId =>
      let st1 :=
        match mapGet st.activeSessions userId with
        | some oldSession =>
          if truthyStr oldSession.socketId then
            { st with socketToUser :=
                mapDelete st.socketToUser (oldSession.socketId.getD "") }
          else st
        | none => st
      let sess : Session :=
        { token := idToken, contactId := contactId, deviceId := deviceId,
          socketId := none, lastActivity := now }
      ({ st1 with activeSessions := mapSet st1.activeSessions userId sess },
       .ok userId idToken contactId)

/-- Outcome of the `authenticate` middleware (App.tsx lines 127-156).
`authInvalid` is the 401 response
"Session expired or invalidated by another login". -/
inductive AuthResult
  | ok (userId contactId : String)
  | noHeader
  | invalidToken
  | authInvalid
deriving DecidableEq, Repr

/-- Bearer-token extraction of the middleware, stated on the header
pre-split at spaces (the source computes `authHeader.split(' ')[1]`).
`authHeader.startsWith('Bearer ')` holds exactly when the first word is
"Bearer" and a second word position exists; the token is word 1 (the empty
string when the header was "Bearer " followed by nothing). -/
def extractBearer (words : List String) : Option String :=
  if words.head? = some "Bearer" ∧ 2 ≤ words.length then
    some (words.getD 1 "")
  else none

/-- The `authenticate` middleware (lines 127-156): extract the bearer token
(the header is passed pre-split at spaces; `none` models an absent header),
verify it with Firebase, then require the uid's registry entry to exist and
hold exactly this token; on success touch `lastActivity` and continue. -/
def authenticate (verify : String → Option String) (st : ServerState)
    (authHeader : Option (List String)) (now : Int) :
    ServerState × AuthResult :=
  match authHeader with
  | none => (st, .noHeader)
  | some h =>
    match extractBearer h with
    | none => (st, .noHeader)
    | some token =>
      match verify token with
      | none => (st, .invalidToken)
      | some userId =>
        match mapGet st.activeSessions userId with
        | none => (st, .authInvalid)
        | some sess =>
          if sess.token ≠ token then (st, .authInvalid)
          else
            (let touched : Session := { sess with lastActivity := now }
             ({ st with activeSessions :=
                  mapSet st.activeSessions userId touched },
              .ok userId sess.contactId))

/-- `GET /api/chat/messages` (App.tsx lines 329-369) on the caller's inbox
collection.  `limitQ` is the parsed `limit` query value (`parseInt` yields
`NaN` → absent; `0` is falsy, so both fall back to 50); the effective limit
is capped at 100.  Firestore returns the messages ordered ascending by
timestamp; the handler then deletes exactly the fetched documents in a
batch.  Returns (returned messages, remaining inbox). -/
def fetchMessages (inbox : List Msg) (limitQ : Option Nat) :
    List Msg × List Msg :=
  let lim := min (match limitQ with
                  | none => 50
                  | some 0 => 50
                  | some n => n) 100
  let fetched := (sortAsc inbox).take lim
  let fetchedIds := fetched.map Msg.id
  (fetched, inbox.filter (fun m => !(decide (m.id ∈ fetchedIds))))

/-! ### The client send path of src/src/hooks/useChat.js (lines 174-228) -/

/-- The optimistic `tempMessage` literal written at the start of
`sendMessage` (lines 179-188): null server id, fresh `localId`, trimmed
content, status `sending`. -/
def tempMessage (user contactId localId trimmedContent : String)
    (now : Int) : Msg :=
  { id := none
  , localId := some localId
  , senderContactId := user
  , recipientContactId := contactId
  , content := trimmedContent
  , timestamp := now
  , messageType := "text"
  , status := "sending" }

/-- The effect of `sendMessage` on the persisted chat list when the network
call (`ApiService.sendMessage`) rejects: the optimistic message was written
through `saveLocalMessage` before the call, and the catch block (lines
217-227) performs no storage write at all — it only calls `setError` and a
`setMessages` updater. -/
def sendMessageOnNetworkFailure (store : List Msg)
    (user contactId localId trimmedContent : String) (now : Int) :
    List Msg :=
  saveLocalMessage store (tempMessage user contactId localId trimmedContent now)

/-- The identifiers lexically in scope inside the catch block of
`sendMessage` (useChat.js lines 217-227): the catch parameter, the
`sendMessage` parameter, the bindings of the `useChat` hook body, and the
module imports.  `localId`, `tempMessage`, `response` and `updatedMessage`
are `const` bindings of the try block (lines 178-208) and are therefore not
in scope in the catch block. -/
def sendMessageCatchScope : List String :=
  ["error", "messageText",
   "user", "contactId", "messages", "setMessages", "loading", "setLoading",
   "setError", "loadMessages", "pollMessages", "sendMessage", "markAsRead",
   "getLocalMessages", "saveLocalMessage", "useChat",
   "useState", "useEffect", "useCallback", "useAuth", "ApiService",
   "StorageService", "generateUniqueId"]

/-- A stored message, distinct in id and client id from `laterIn` below. -/
def earlierStored : Msg :=
  { id := some "srv-1", localId := some "cli-1", senderContactId := "alice",
    recipientContactId := "bob", content := "hello", timestamp := 0,
    messageType := "text", status := "read" }

/-- A genuinely different incoming message with the same content, sent
3 seconds later. -/
def laterIn : MsgIn :=
  { id := some "srv-2", senderContactId := some "alice",
    recipientContactId := some "bob", content := "hello",
    timestamp := some 3000, messageType := some "text",
    status := some "sent", localId := some "cli-2" }

/-- A stored message already acknowledged as delivered. -/
def storedDelivered : Msg :=
  { id := some "m1", localId := some "c1", senderContactId := "alice",
    recipientContactId := "bob", content := "hi", timestamp := 100,
    messageType := "text", status := "delivered" }

/-- The same logical message arriving again with status `sent`. -/
def dupSent : MsgIn :=
  { id := some "m1", senderContactId := some "alice",
    recipientContactId := some "bob", content := "hi",
    timestamp := some 100, messageType := some "text",
    status := some "sent", localId := some "c1" }

/-- A stored server message that carries no client id (`localId` null). -/
def storedNullLocal : Msg :=
  { id := some "n1", localId := none, senderContactId := "alice",
    recipientContactId := "bob", content := "first", timestamp := 0,
    messageType := "text", status := "sent" }

/-- A different remote message, also with `localId` null. -/
def remoteNullLocal : Msg :=
  { id := some "m1", localId := none, senderContactId := "carol",
    recipientContactId := "bob", content := "second", timestamp := 1000,
    messageType := "text", status := "sent" }

/-- A demonstration Firebase verifier: two id tokens authenticating the
same uid. -/
def demoVerify : String → Option String := fun t =>
  if t = "tokA" ∨ t = "tokB" then some "u1" else none

/-- An initially empty server state. -/
def demoServer : ServerState :=
  { activeSessions := [], socketToUser := [] }

/-! ### Helper lemmas -/

theorem jsFindIndex_eq_none {α : Type} {p : α → Bool} {l : List α}
    (h : ∀ a ∈ l, p a = false) : jsFindIndex p l = none := by
  induction l with
  | nil => rfl
  | cons a l ih =>
    have ha := h a (List.mem_cons_self a l)
    have ht := ih (fun b hb => h b (List.mem_cons_of_mem a hb))
    simp [jsFindIndex, ha, ht]

theorem jsFindIndex_some {α : Type} {p : α → Bool} {l : List α} {i : Nat}
    (h : jsFindIndex p l = some i) :
    ∃ a, l.get? i = some a ∧ p a = true := by
  induction l generalizing i with
  | nil => simp [jsFindIndex] at h
  | cons a l ih =>
    by_cases hp : p a = true
    · simp [jsFindIndex, hp] at h
      exact ⟨a, by rw [← h]; rfl, hp⟩
    · simp only [jsFindIndex, Bool.not_eq_true] at hp
      simp only [jsFindIndex, hp, Bool.false_eq_true, if_false,
        Option.map_eq_some'] at h
      obtain ⟨j, hj, hji⟩ := h
      obtain ⟨b, hb, hpb⟩ := ih hj
      exact ⟨b, by rw [← hji]; simpa using hb, hpb⟩

theorem jsFindIndex_isSome {α : Type} {p : α → Bool} {l : List α} {a : α}
    (ha : a ∈ l) (hp : p a = true) : (jsFindIndex p l).isSome = true := by
  induction l with
  | nil => simp at ha
  | cons b l ih =>
    by_cases hb : p b = true
    · simp [jsFindIndex, hb]
    · rcases List.mem_cons.mp ha with rfl | ha'
      · exact absurd hp hb
      · simp only [jsFindIndex, hb, Bool.false_eq_true, if_false]
        have := ih ha'
        cases hj : jsFindIndex p l with
        | none => rw [hj] at this; simp at this
        | some j => simp

theorem list_set_get_self {α : Type} :
    ∀ (l : List α) (i : Nat) (a : α), l.get? i = some a → l.set i a = l
  | [], _, _, h => by simp at h
  | b :: l, 0, a, h => by
    simp only [List.get?_cons_zero, Option.some.injEq] at h
    simp [List.set, h]
  | b :: l, i + 1, a, h => by
    simp only [List.get?_cons_succ] at h
    simp [List.set, list_set_get_self l i a h]

theorem list_get_set_self {α : Type} :
    ∀ (l : List α) (i : Nat) (a : α), i < l.length →
      (l.set i a).get? i = some a
  | [], i, _, h => by simp at h
  | b :: l, 0, a, _ => rfl
  | b :: l, i + 1, a, h => by
    simp only [List.set, List.get?_cons_succ]
    exact list_get_set_self l i a (Nat.lt_of_succ_lt_succ h)

theorem list_map_id_on {α : Type} {f : α → α} :
    ∀ {l : List α}, (∀ a ∈ l, f a = a) → l.map f = l
  | [], _ => rfl
  | a :: l, h => by
    have ha := h a (List.mem_cons_self a l)
    have ht := list_map_id_on (fun b hb => h b (List.mem_cons_of_mem a hb))
    simp [ha, ht]

theorem mapGet_eq_none_of_any_false {α : Type} {m : List (String × α)}
    {k : String} (h : m.any (fun p => p.1 = k) = false) :
    mapGet m k = none := by
  induction m with
  | nil => rfl
  | cons p rest ih =>
    rw [List.any_cons, Bool.or_eq_false_iff] at h
    have h1 : p.1 ≠ k := by simpa using h.1
    simp [mapGet, h1, ih h.2]

theorem mapGet_isSome_of_any_true {α : Type} {m : List (String × α)}
    {k : String} (h : m.any (fun p => p.1 = k) = true) :
    (mapGet m k).isSome = true := by
  induction m with
  | nil => simp at h
  | cons p rest ih =>
    rw [List.any_cons, Bool.or_eq_true_iff] at h
    by_cases h1 : p.1 = k
    · simp [mapGet, h1]
    · rcases h with h | h
      · simp [h1] at h
      · simp [mapGet, h1, ih h]

theorem mapGet_map_replace {α : Type} (m : List (String × α))
    (k : String) (v : α) :
    mapGet (m.map (fun p => if p.1 = k then (k, v) else p)) k
      = (mapGet m k).map (fun _ => v) := by
  induction m with
  | nil => rfl
  | cons p rest ih =>
    simp only [List.map_cons]
    by_cases h1 : p.1 = k
    · rw [if_pos h1]
      simp [mapGet, h1]
    · rw [if_neg h1]
      simp [mapGet, h1, ih]

theorem mapGet_append_single_of_none {α : Type} {m : List (String × α)}
    {k : String} (v : α) (h : mapGet m k = none) :
    mapGet (m ++ [(k, v)]) k = some v := by
  induction m with
  | nil => simp [mapGet]
  | cons p rest ih =>
    by_cases h1 : p.1 = k
    · rw [mapGet, if_pos h1] at h
      exact absurd h (by simp)
    · rw [mapGet, if_neg h1] at h
      rw [List.cons_append, mapGet, if_neg h1]
      exact ih h

theorem mapGet_mapSet_self {α : Type} (m : List (String × α))
    (k : String) (v : α) : mapGet (mapSet m k v) k = some v := by
  rw [mapSet]
  by_cases h : m.any (fun p => p.1 = k) = true
  · rw [if_pos h, mapGet_map_replace]
    obtain ⟨w, hw⟩ := Option.isSome_iff_exists.mp (mapGet_isSome_of_any_true h)
    rw [hw]
    rfl
  · rw [if_neg h]
    exact mapGet_append_single_of_none v
      (mapGet_eq_none_of_any_false (Bool.eq_false_iff.mpr h))

theorem mapSet_mem_key {α : Type} {m : List (String × α)} {k : String}
    {v : α} {p : String × α} (hp : p ∈ mapSet m k v) (hk : p.1 = k) :
    p = (k, v) := by
  rw [mapSet] at hp
  by_cases h : m.any (fun q => q.1 = k) = true
  · rw [if_pos h] at hp
    obtain ⟨q, _, hq⟩ := List.mem_map.mp hp
    by_cases hqk : q.1 = k
    · rw [if_pos hqk] at hq
      exact hq.symm
    · rw [if_neg hqk] at hq
      exact absurd (hq ▸ hk) hqk
  · rw [if_neg h] at hp
    rcases List.mem_append.mp hp with hm | hs
    · have := List.any_eq_false.mp (Bool.eq_false_iff.mpr h) p hm
      simp [hk] at this
    · simpa using hs

theorem mem_sortAsc {l : List Msg} {a : Msg} : a ∈ sortAsc l ↔ a ∈ l :=
  List.mem_insertionSort byTsLe

theorem perm_sortAsc (l : List Msg) : (sortAsc l).Perm l :=
  List.perm_insertionSort byTsLe l

theorem length_sortAsc (l : List Msg) : (sortAsc l).length = l.length :=
  List.length_insertionSort byTsLe l

theorem length_sortDesc (l : List Msg) : (sortDesc l).length = l.length :=
  List.length_insertionSort byTsGe l

theorem sortAsc_idem (l : List Msg) : sortAsc (sortAsc l) = sortAsc l :=
  (List.sorted_insertionSort byTsLe l).insertionSort_eq

theorem getChatMessages_valid {persisted : List Msg} {m : Msg}
    (h : m ∈ getChatMessages persisted) : validateMessageB m = true := by
  rw [getChatMessages, mem_sortAsc] at h
  exact List.of_mem_filter h

theorem getChatMessages_mem {persisted : List Msg} {m : Msg}
    (h : m ∈ getChatMessages persisted) : m ∈ persisted := by
  rw [getChatMessages, mem_sortAsc] at h
  exact List.mem_of_mem_filter h

theorem wsSendAll_not_open {s : WSState} (h : s.wsOpen = false)
    (msgs : List String) :
    wsSendAll s msgs = { s with messageQueue := s.messageQueue ++ msgs } := by
  induction msgs generalizing s with
  | nil => simp [wsSendAll]
  | cons m ms ih =>
    have h1 : (wsSend s m).1 = { s with messageQueue := s.messageQueue ++ [m] } := by
      simp [wsSend, h]
    show wsSendAll (wsSend s m).1 ms = _
    rw [h1, ih (show WSState.wsOpen
      { s with messageQueue := s.messageQueue ++ [m] } = false from h)]
    simp

theorem wsSendAll_open {s : WSState} (h : s.wsOpen = true)
    (msgs : List String) :
    wsSendAll s msgs = { s with transmitted := s.transmitted ++ msgs } := by
  induction msgs generalizing s with
  | nil => simp [wsSendAll]
  | cons m ms ih =>
    have h1 : (wsSend s m).1 = { s with transmitted := s.transmitted ++ [m] } := by
      simp [wsSend, h]
    show wsSendAll (wsSend s m).1 ms = _
    rw [h1, ih (show WSState.wsOpen
      { s with transmitted := s.transmitted ++ [m] } = true from h)]
    simp

theorem flushMessageQueue_open {s : WSState} (h : s.wsOpen = true) :
    flushMessageQueue s
      = { s with messageQueue := [],
                 transmitted := s.transmitted ++ s.messageQueue } := by
  rw [flushMessageQueue]
  by_cases hq : 0 < s.messageQueue.length
  · rw [if_pos hq, wsSendAll_open (show WSState.wsOpen { s with messageQueue := [] } = true from h)]
  · rw [if_neg hq]
    have h0 : s.messageQueue = [] := by
      cases he : s.messageQueue with
      | nil => rfl
      | cons a l => rw [he] at hq; simp at hq
    rw [h0, List.append_nil]
    conv_lhs => rw [show s = { s with messageQueue := [] } from by rw [← h0]]

/-! ### C5, C6, C7 theorems -/

/-- C5 (corrected), counterexample to the claim as stated: the attempt
counter is not reset *only* upon a confirmed successful connection —
`disconnect()` (part_013 line 103) also resets it to zero, here from a
state with three failed attempts and no connection, and the resulting state
is still not connected. -/
theorem disconnect_resets_attempts_cex :
    reconnectingExample.reconnectAttempts = 3 ∧
    (wsDisconnect reconnectingExample).reconnectAttempts = 0 ∧
    (wsDisconnect reconnectingExample).isConnected = false ∧
    (wsDisconnect reconnectingExample).wsOpen = false :=
  ⟨rfl, rfl, rfl, rfl⟩

/-- C5 (amended): for every attempt number `n = reconnectAttempts + 1` up to
the cap of `maxReconnectAttempts = 5`, `attemptReconnect` arms a timer with
delay `reconnectInterval * 2 ^ (n - 1)` (base 1000 ms), these delays are
non-decreasing in `n`, and the counter is reset to zero by a successful
`onopen`; however it is also reset to zero by an explicit `disconnect`. -/
theorem backoff_formula_and_resets (s : WSState)
    (h : s.reconnectAttempts < maxReconnectAttempts) :
    (attemptReconnect s).reconnectAttempts = s.reconnectAttempts + 1 ∧
    (attemptReconnect s).pendingReconnectDelay
      = some (reconnectInterval * 2 ^ s.reconnectAttempts) ∧
    reconnectInterval * 2 ^ s.reconnectAttempts
      ≤ reconnectInterval * 2 ^ (s.reconnectAttempts + 1) ∧
    (onopen s).reconnectAttempts = 0 ∧
    (wsDisconnect s).reconnectAttempts = 0 := by
  rw [attemptReconnect, if_neg (not_le.mpr h)]
  refine ⟨rfl, by simp, ?_, ?_, rfl⟩
  · exact Nat.mul_le_mul_left _
      (Nat.pow_le_pow_right (by norm_num) (Nat.le_succ _))
  · rw [onopen, flushMessageQueue_open rfl]

/-- C5 witness instance. -/
theorem backoff_formula_and_resets_witness :
    (attemptReconnect reconnectingExample).reconnectAttempts = 4 ∧
    (attemptReconnect reconnectingExample).pendingReconnectDelay
      = some 8000 ∧
    (onopen reconnectingExample).reconnectAttempts = 0 := by
  have h := backoff_formula_and_resets reconnectingExample (by decide)
  exact ⟨h.1, h.2.1, h.2.2.2.1⟩

/-- C6 (confirmed): frames submitted through `send` while the socket is not
open are appended to the queue in submission order and transmitted nowhere;
when `onopen` fires, the whole queue is flushed onto the socket exactly
once, in FIFO order, and the queue is left empty. -/
theorem queue_flush_fifo (s : WSState) (msgs : List String)
    (h : s.wsOpen = false) :
    (wsSendAll s msgs).messageQueue = s.messageQueue ++ msgs ∧
    (wsSendAll s msgs).transmitted = s.transmitted ∧
    (onopen (wsSendAll s msgs)).transmitted
      = s.transmitted ++ (s.messageQueue ++ msgs) ∧
    (onopen (wsSendAll s msgs)).messageQueue = [] := by
  rw [wsSendAll_not_open h msgs]
  refine ⟨rfl, rfl, ?_, ?_⟩
  · rw [onopen, flushMessageQueue_open rfl]
  · rw [onopen, flushMessageQueue_open rfl]

/-- C6 witness instance. -/
theorem queue_flush_fifo_witness :
    (wsSendAll offlineExample ["a", "b"]).messageQueue = ["q1", "a", "b"] ∧
    (onopen (wsSendAll offlineExample ["a", "b"])).transmitted
      = ["t0", "q1", "a", "b"] ∧
    (onopen (wsSendAll offlineExample ["a", "b"])).messageQueue = [] := by
  have h := queue_flush_fifo offlineExample ["a", "b"] rfl
  exact ⟨h.1, h.2.2.1, h.2.2.2⟩

/-- C7 (corrected), counterexample to the claim as stated: from an `Active`
state, a missed pong fires the heartbeat timeout, which calls `disconnect()`
(close code 1000); since `onclose` reconnects only for codes other than
1000/1001, no reconnect timer is armed and the client is left disconnected
and not connecting — a permanent stop, not a restart of the reconnect
cycle. -/
theorem missed_pong_no_reconnect_cex :
    activeExample.isConnected = true ∧
    (heartbeatTimeoutFires activeExample).isConnected = false ∧
    (heartbeatTimeoutFires activeExample).isConnecting = false ∧
    (heartbeatTimeoutFires activeExample).pendingReconnectDelay = none ∧
    (heartbeatTimeoutFires activeExample).heartbeatRunning = false :=
  ⟨rfl, rfl, rfl, rfl, rfl⟩

/-- C7 (amended): the client pings every 60 s and allows 30 s for the pong,
as the claim says; but a missed pong leads to `disconnect()` with close code
1000, after which `onclose` arms no reconnect timer (the ghost
`pendingReconnectDelay` is unchanged, never newly armed), leaves the client
disconnected with an empty queue and a zeroed attempt counter: the
`Reconnecting` cycle is not restarted. -/
theorem missed_pong_stops_reconnection (s : WSState) :
    (heartbeatTimeoutFires s).pendingReconnectDelay
      = s.pendingReconnectDelay ∧
    (heartbeatTimeoutFires s).isConnected = false ∧
    (heartbeatTimeoutFires s).isConnecting = false ∧
    (heartbeatTimeoutFires s).reconnectAttempts = 0 ∧
    (heartbeatTimeoutFires s).messageQueue = [] ∧
    heartbeatIntervalMs = 60000 ∧ heartbeatTimeoutMs = 30000 :=
  ⟨rfl, rfl, rfl, rfl, rfl, rfl, rfl⟩

/-! ### C10: the content/5-second dedup window collapses distinct messages -/

/-- C10 (confirmed): `addChatMessage` treats an incoming message as a
duplicate of a stored one whenever the contents are equal and the timestamps
are less than 5 s apart, even when both the server ids and the client ids
differ; the store then keeps a single record whose fields all come from the
later arrival. -/
theorem content_window_collapses_distinct
    (m1 : Msg) (c g : String) (now : Int) (m2 : MsgIn)
    (hv : m1.content ≠ "")
    (hc2 : m2.content ≠ "")
    (_hid : m1.id ≠ (messageData c g now m2).id)
    (_hlid : m1.localId ≠ (messageData c g now m2).localId)
    (hcontent : m1.content = (messageData c g now m2).content)
    (hts : (m1.timestamp - (messageData c g now m2).timestamp).natAbs < 5000) :
    addChatMessage [m1] c g now m2 = some [messageData c g now m2] := by
  have hvb : validateMessageB m1 = true := by
    simp [validateMessageB, hv]
  have hS : getChatMessages [m1] = [m1] := by
    simp [getChatMessages, List.filter, hvb, sortAsc, List.insertionSort]
  have hdup : isDuplicate m1 (messageData c g now m2) = true := by
    simp [isDuplicate, hcontent, hts]
  rw [addChatMessage, if_neg hc2]
  simp only [hS, jsFindIndex, hdup, if_true, mergeRecord]
  simp [cleanupMutated, MAX_MESSAGES_PER_CHAT]

/-- C10 witness instance. -/
theorem content_window_collapses_distinct_witness :
    addChatMessage [earlierStored] "bob" "g1" 7 laterIn
      = some [messageData "bob" "g1" 7 laterIn] :=
  content_window_collapses_distinct earlierStored "bob" "g1" 7 laterIn
    (by decide) (by decide) (by decide) (by decide) (by decide) (by decide)

/-! ### C3: status is overwritten on merge, not merged forward-only -/

/-- C3 counterexample: merging a duplicate carrying status `sent` into a
stored message with status `delivered` does not leave the stored status
unchanged — the merge `messages[i] = ...existing, ...messageData` rewrites
it back to `sent`, a regression along the
`sending→sent→delivered→read` order. -/
theorem merge_status_regresses_cex :
    storedDelivered.status = "delivered" ∧
    addChatMessage [storedDelivered] "bob" "g" 0 dupSent
      = some [{ storedDelivered with status := "sent" }] ∧
    "sent" ≠ "delivered" := by
  refine ⟨rfl, ?_, by decide⟩
  decide

/-- C3 (amended): when the dedup rule finds a stored duplicate, the merge
replaces every modelled field of the stored record — including `status` —
with the incoming `messageData` values, so the resulting status is the
incoming message's status (default `sent`) regardless of the stored one;
statuses are not merged forward-only and can regress. -/
theorem merge_overwrites_status (persisted : List Msg) (c g : String)
    (now : Int) (message : MsgIn) (i : Nat)
    (hc : message.content ≠ "")
    (hfind : jsFindIndex (fun m => isDuplicate m (messageData c g now message))
        (getChatMessages persisted) = some i) :
    addChatMessage persisted c g now message
      = some (cleanupMutated
          ((getChatMessages persisted).set i (messageData c g now message))) ∧
    ((getChatMessages persisted).set i (messageData c g now message)).get? i
      = some (messageData c g now message) ∧
    (messageData c g now message).status = message.status.getD "sent" := by
  obtain ⟨a, hget, _⟩ := jsFindIndex_some hfind
  have hlen : i < (getChatMessages persisted).length := by
    by_contra hge
    rw [List.get?_eq_none.mpr (Nat.le_of_not_lt hge)] at hget
    exact Option.noConfusion hget
  refine ⟨?_, list_get_set_self _ i _ hlen, rfl⟩
  rw [addChatMessage, if_neg hc]
  simp only [hfind, mergeRecord]

/-- C3 amended-theorem witness instance. -/
theorem merge_overwrites_status_witness :
    addChatMessage [storedDelivered] "bob" "g" 0 dupSent
      = some (cleanupMutated
          ((getChatMessages [storedDelivered]).set 0
            (messageData "bob" "g" 0 dupSent))) ∧
    ((getChatMessages [storedDelivered]).set 0
        (messageData "bob" "g" 0 dupSent)).get? 0
      = some (messageData "bob" "g" 0 dupSent) ∧
    (messageData "bob" "g" 0 dupSent).status = "sent" :=
  merge_overwrites_status [storedDelivered] "bob" "g" 0 dupSent 0
    (by decide) (by decide)

/-! ### C2: merge idempotence -/

/-- C2 counterexample: merging the same remote message (with null
`localId`) twice through `saveLocalMessage` does not leave exactly one
stored record and does change the list — the second application's update
branch replaces every stored record whose `localId` is also null
(`null === null`) with the merged message, yielding two copies of it and
destroying the unrelated stored message. -/
theorem saveLocalMessage_reapply_changes_list_cex :
    saveLocalMessage [storedNullLocal] remoteNullLocal
      = [storedNullLocal, remoteNullLocal] ∧
    saveLocalMessage (saveLocalMessage [storedNullLocal] remoteNullLocal)
        remoteNullLocal
      = [remoteNullLocal, remoteNullLocal] ∧
    ([remoteNullLocal, remoteNullLocal] : List Msg)
      ≠ [storedNullLocal, remoteNullLocal] ∧
    (saveLocalMessage (saveLocalMessage [storedNullLocal] remoteNullLocal)
        remoteNullLocal).countP
        (fun m => decide (m.id = remoteNullLocal.id)) = 2 := by
  refine ⟨by decide, by decide, by decide, by decide⟩

/-- C2 (amended): merging the same remote message twice is idempotent only
under side conditions.  (1) Via `saveLocalMessage`: when no stored message
shares the merged message's `id` or `localId` value and the merged message
has a truthy `id`, the second application leaves the list unchanged and the
store holds exactly one record with that `id` (the counterexample shows this
fails when another stored record has the same — e.g. null — `localId`).
(2) Via `addChatMessage`: when no stored message matches the dedup rule
(same `id`, or equal content within 5 s) and the chat is below the eviction
mark, the first merge appends exactly one record, the second merge only
re-sorts, the read-back list is unchanged by re-application, and exactly one
stored record carries the merged id. -/
theorem merge_idempotent_amended :
    (∀ (store : List Msg) (M : Msg),
      (∀ m ∈ store, m.id ≠ M.id) →
      (∀ m ∈ store, m.localId ≠ M.localId) →
      truthyStr M.id = true →
      saveLocalMessage (saveLocalMessage store M) M
          = saveLocalMessage store M ∧
      (saveLocalMessage store M).countP
          (fun m => decide (m.id = M.id)) = 1) ∧
    (∀ (persisted : List Msg) (c g : String) (now : Int) (msg : MsgIn),
      msg.content ≠ "" →
      (∀ m ∈ getChatMessages persisted,
          isDuplicate m (messageData c g now msg) = false) →
      (getChatMessages persisted).length + 1 ≤ MAX_MESSAGES_PER_CHAT →
      addChatMessage persisted c g now msg
          = some (getChatMessages persisted ++ [messageData c g now msg]) ∧
      addChatMessage
          (getChatMessages persisted ++ [messageData c g now msg])
          c g now msg
          = some (sortAsc (getChatMessages persisted
              ++ [messageData c g now msg])) ∧
      getChatMessages (sortAsc (getChatMessages persisted
              ++ [messageData c g now msg]))
          = getChatMessages (getChatMessages persisted
              ++ [messageData c g now msg]) ∧
      (sortAsc (getChatMessages persisted
          ++ [messageData c g now msg])).countP
          (fun m => decide (m.id = (messageData c g now msg).id)) = 1) := by
  constructor
  · intro store M h1 h3 h4
    have hex : (store.any (fun m => decide (m.id = M.id)
        || (truthyStr m.localId && decide (m.localId = M.localId)))) = false := by
      rw [List.any_eq_false]
      intro m hm
      simp [h1 m hm, h3 m hm]
    have honce : saveLocalMessage store M = sortAsc (store ++ [M]) := by
      simp [saveLocalMessage, hex]
    have hmem : M ∈ sortAsc (store ++ [M]) :=
      mem_sortAsc.mpr (List.mem_append.mpr (Or.inr (List.mem_singleton.mpr rfl)))
    have hex2 : ((sortAsc (store ++ [M])).any (fun m => decide (m.id = M.id)
        || (truthyStr m.localId && decide (m.localId = M.localId)))) = true :=
      List.any_eq_true.mpr ⟨M, hmem, by simp⟩
    have hmap : (sortAsc (store ++ [M])).map
        (fun m => if m.localId = M.localId then M else m)
        = sortAsc (store ++ [M]) := by
      apply list_map_id_on
      intro a ha
      rcases List.mem_append.mp (mem_sortAsc.mp ha) with h | h
      · rw [if_neg (h3 a h)]
      · rw [List.mem_singleton.mp h, if_pos rfl]
    have hsecond : saveLocalMessage (sortAsc (store ++ [M])) M
        = sortAsc (store ++ [M]) := by
      simp only [saveLocalMessage, hex2, Bool.not_true, Bool.false_eq_true,
        if_false, h4, if_true]
      exact hmap
    refine ⟨by rw [honce, hsecond], ?_⟩
    rw [honce, List.Perm.countP_eq _ (perm_sortAsc _), List.countP_append]
    have h0 : store.countP (fun m => decide (m.id = M.id)) = 0 :=
      List.countP_eq_zero.mpr (fun a ha => by simp [h1 a ha])
    simp [h0]
  · intro persisted c g now msg hc hdup hlen
    have hnone : jsFindIndex
        (fun m => isDuplicate m (messageData c g now msg))
        (getChatMessages persisted) = none :=
      jsFindIndex_eq_none (fun a ha => hdup a ha)
    have hL1 : ¬ (MAX_MESSAGES_PER_CHAT
        < (getChatMessages persisted ++ [messageData c g now msg]).length) := by
      rw [List.length_append]
      simpa using not_lt.mpr hlen
    have hfirst : addChatMessage persisted c g now msg
        = some (getChatMessages persisted ++ [messageData c g now msg]) := by
      rw [addChatMessage, if_neg hc]
      simp only [hnone]
      rw [cleanupMutated, if_neg hL1]
    have hvalid : ∀ m ∈ getChatMessages persisted
        ++ [messageData c g now msg], validateMessageB m = true := by
      intro m hm
      rcases List.mem_append.mp hm with h | h
      · exact getChatMessages_valid h
      · rw [List.mem_singleton.mp h]
        simp [validateMessageB, messageData, hc]
    have hread : getChatMessages
        (getChatMessages persisted ++ [messageData c g now msg])
        = sortAsc (getChatMessages persisted ++ [messageData c g now msg]) := by
      rw [getChatMessages, List.filter_eq_self.mpr hvalid]
    have hS2valid : ∀ m ∈ sortAsc (getChatMessages persisted
        ++ [messageData c g now msg]), validateMessageB m = true :=
      fun m hm => hvalid m (mem_sortAsc.mp hm)
    have hreadS2 : getChatMessages (sortAsc (getChatMessages persisted
        ++ [messageData c g now msg]))
        = sortAsc (getChatMessages persisted ++ [messageData c g now msg]) := by
      rw [getChatMessages, List.filter_eq_self.mpr hS2valid, sortAsc_idem]
    have hmd_mem : messageData c g now msg ∈ sortAsc (getChatMessages persisted
        ++ [messageData c g now msg]) :=
      mem_sortAsc.mpr (List.mem_append.mpr (Or.inr (List.mem_singleton.mpr rfl)))
    have hpmd : (fun m => isDuplicate m (messageData c g now msg))
        (messageData c g now msg) = true := by
      simp [isDuplicate]
    have hfindsome := @jsFindIndex_isSome Msg
      (fun m => isDuplicate m (messageData c g now msg))
      (sortAsc (getChatMessages persisted ++ [messageData c g now msg]))
      (messageData c g now msg) hmd_mem hpmd
    obtain ⟨i, hi⟩ := Option.isSome_iff_exists.mp hfindsome
    obtain ⟨a, hget, hpa⟩ := jsFindIndex_some hi
    have haeq : a = messageData c g now msg := by
      rcases List.mem_append.mp (mem_sortAsc.mp (List.get?_mem hget)) with h | h
      · exact absurd hpa (by simp [hdup a h])
      · exact List.mem_singleton.mp h
    have hL2 : ¬ (MAX_MESSAGES_PER_CHAT < (sortAsc (getChatMessages persisted
        ++ [messageData c g now msg])).length) := by
      rw [length_sortAsc, List.length_append]
      simpa using not_lt.mpr hlen
    have hsecond : addChatMessage
        (getChatMessages persisted ++ [messageData c g now msg]) c g now msg
        = some (sortAsc (getChatMessages persisted
            ++ [messageData c g now msg])) := by
      rw [addChatMessage, if_neg hc]
      simp only [hread, hi, mergeRecord]
      rw [list_set_get_self _ i _ (haeq ▸ hget)]
      rw [cleanupMutated, if_neg hL2]
    have hcount : (sortAsc (getChatMessages persisted
        ++ [messageData c g now msg])).countP
        (fun m => decide (m.id = (messageData c g now msg).id)) = 1 := by
      rw [List.Perm.countP_eq _ (perm_sortAsc _), List.countP_append]
      have h0 : (getChatMessages persisted).countP
          (fun m => decide (m.id = (messageData c g now msg).id)) = 0 := by
        apply List.countP_eq_zero.mpr
        intro a ha
        have hfa := hdup a ha
        rw [isDuplicate, Bool.or_eq_false_iff] at hfa
        simp only [hfa.1]
        exact fun hcontra => Bool.noConfusion hcontra
      simp [h0]
    exact ⟨hfirst, hsecond, by rw [hreadS2, hread], hcount⟩

/-- C2 amended-theorem witness instance: both conjuncts instantiated on an
empty store. -/
theorem merge_idempotent_amended_witness :
    (saveLocalMessage (saveLocalMessage [] remoteNullLocal) remoteNullLocal
        = saveLocalMessage [] remoteNullLocal ∧
      (saveLocalMessage [] remoteNullLocal).countP
        (fun m => decide (m.id = remoteNullLocal.id)) = 1) ∧
    (addChatMessage [] "bob" "g" 0 dupSent
        = some (getChatMessages [] ++ [messageData "bob" "g" 0 dupSent]) ∧
      addChatMessage (getChatMessages []
          ++ [messageData "bob" "g" 0 dupSent]) "bob" "g" 0 dupSent
        = some (sortAsc (getChatMessages []
            ++ [messageData "bob" "g" 0 dupSent])) ∧
      getChatMessages (sortAsc (getChatMessages []
          ++ [messageData "bob" "g" 0 dupSent]))
        = getChatMessages (getChatMessages []
            ++ [messageData "bob" "g" 0 dupSent]) ∧
      (sortAsc (getChatMessages []
          ++ [messageData "bob" "g" 0 dupSent])).countP
        (fun m => decide (m.id = (messageData "bob" "g" 0 dupSent).id)) = 1) :=
  ⟨merge_idempotent_amended.1 [] remoteNullLocal
      (by intro m hm; exact absurd hm (List.not_mem_nil m))
      (by intro m hm; exact absurd hm (List.not_mem_nil m))
      (by decide),
   merge_idempotent_amended.2 [] "bob" "g" 0 dupSent (by decide)
      (fun m hm => absurd (getChatMessages_mem hm) (List.not_mem_nil m))
      (by decide)⟩

/-! ### C4: eviction is clobbered by the final write -/

/-- C4 (code bug): `addChatMessage` never persists a trimmed list.  The
final write (line 1183) stores the full merged `messages` array, so in the
new-message case the persisted length is always the previous read-back
length plus one — even past the high-water mark — although
`cleanupOldMessages` itself had just written a list of exactly
`MESSAGE_CLEANUP_THRESHOLD` (500) messages, which the final write
overwrites. -/
theorem addChatMessage_no_eviction (persisted : List Msg) (c g : String)
    (now : Int) (msg : MsgIn)
    (hc : msg.content ≠ "")
    (hnew : jsFindIndex (fun m => isDuplicate m (messageData c g now msg))
        (getChatMessages persisted) = none) :
    addChatMessage persisted c g now msg
      = some (cleanupMutated (getChatMessages persisted
          ++ [messageData c g now msg])) ∧
    (cleanupMutated (getChatMessages persisted
        ++ [messageData c g now msg])).length
      = (getChatMessages persisted).length + 1 ∧
    (∀ l : List Msg, MAX_MESSAGES_PER_CHAT < l.length →
      ∃ w, cleanupWrite l = some w
        ∧ w.length = MESSAGE_CLEANUP_THRESHOLD) := by
  refine ⟨?_, ?_, ?_⟩
  · rw [addChatMessage, if_neg hc]
    simp only [hnew]
  · rw [cleanupMutated]
    by_cases hL : MAX_MESSAGES_PER_CHAT
        < (getChatMessages persisted ++ [messageData c g now msg]).length
    · rw [if_pos hL, length_sortDesc, List.length_append]
      simp
    · rw [if_neg hL, List.length_append]
      simp
  · intro l hL
    refine ⟨_, by rw [cleanupWrite, if_pos hL], ?_⟩
    rw [List.length_reverse, List.length_take, length_sortDesc]
    have h500 : MESSAGE_CLEANUP_THRESHOLD ≤ l.length := by
      unfold MESSAGE_CLEANUP_THRESHOLD
      unfold MAX_MESSAGES_PER_CHAT at hL
      omega
    exact Nat.min_eq_left h500

/-- C4 witness instance: the persisted result keeps all messages (here
`0 + 1` of them); and on any list past the high-water mark — here 1001
copies — the clobbered cleanup write would have held exactly 500. -/
theorem addChatMessage_no_eviction_witness :
    addChatMessage [] "bob" "g" 0 dupSent
      = some (cleanupMutated (getChatMessages []
          ++ [messageData "bob" "g" 0 dupSent])) ∧
    (cleanupMutated (getChatMessages []
        ++ [messageData "bob" "g" 0 dupSent])).length
      = (getChatMessages []).length + 1 ∧
    (∃ w, cleanupWrite (List.replicate 1001 storedDelivered) = some w
      ∧ w.length = MESSAGE_CLEANUP_THRESHOLD) := by
  have h := addChatMessage_no_eviction [] "bob" "g" 0 dupSent
    (by decide) rfl
  exact ⟨h.1, h.2.1, h.2.2 (List.replicate 1001 storedDelivered)
    (by rw [List.length_replicate]; decide)⟩

/-! ### C8: the failure path of sendMessage -/

/-- C8 (code bug): when the network call fails, the persisted optimistic
message is left with status `sending` — the catch block never rewrites
storage — and the catch block's `setMessages` updater references `localId`,
which is not among the identifiers in scope there (it is `const`-bound
inside the try block), so the failure handler itself raises a
`ReferenceError`. -/
theorem sendMessage_failure_leaves_sending (store : List Msg)
    (user contactId localId content : String) (now : Int)
    (hnoNull : ∀ m ∈ store, m.id ≠ none)
    (hfresh : ∀ m ∈ store, m.localId ≠ some localId) :
    sendMessageOnNetworkFailure store user contactId localId content now
      = sortAsc (store ++ [tempMessage user contactId localId content now]) ∧
    (tempMessage user contactId localId content now).status = "sending" ∧
    tempMessage user contactId localId content now
      ∈ sendMessageOnNetworkFailure store user contactId localId content now ∧
    "localId" ∉ sendMessageCatchScope := by
  have hex : (store.any (fun m =>
      decide (m.id = (tempMessage user contactId localId content now).id)
        || (truthyStr m.localId && decide (m.localId
            = (tempMessage user contactId localId content now).localId))))
      = false := by
    rw [List.any_eq_false]
    intro m hm
    have h1 : m.id ≠ (tempMessage user contactId localId content now).id :=
      hnoNull m hm
    have h2 : m.localId
        ≠ (tempMessage user contactId localId content now).localId :=
      hfresh m hm
    simp [h1, h2]
  have hres : sendMessageOnNetworkFailure store user contactId localId
      content now
      = sortAsc (store ++ [tempMessage user contactId localId content now]) := by
    rw [sendMessageOnNetworkFailure]
    simp [saveLocalMessage, hex]
  refine ⟨hres, rfl, ?_, by decide⟩
  rw [hres]
  exact mem_sortAsc.mpr
    (List.mem_append.mpr (Or.inr (List.mem_singleton.mpr rfl)))

/-- C8 witness instance. -/
theorem sendMessage_failure_leaves_sending_witness :
    sendMessageOnNetworkFailure [] "alice" "bob" "cli-9" "hi" 5
      = sortAsc ([] ++ [tempMessage "alice" "bob" "cli-9" "hi" 5]) ∧
    (tempMessage "alice" "bob" "cli-9" "hi" 5).status = "sending" ∧
    tempMessage "alice" "bob" "cli-9" "hi" 5
      ∈ sendMessageOnNetworkFailure [] "alice" "bob" "cli-9" "hi" 5 ∧
    "localId" ∉ sendMessageCatchScope :=
  sendMessage_failure_leaves_sending [] "alice" "bob" "cli-9" "hi" 5
    (fun m hm => absurd hm (List.not_mem_nil m))
    (fun m hm => absurd hm (List.not_mem_nil m))

/-! ### C9: the fetch endpoint is destructive, and exactly so -/

/-- C9 (confirmed): `GET /api/chat/messages` returns messages drawn from the
caller's inbox and deletes exactly the returned documents: a message stays
in the inbox if and only if its id was not among the returned ones, every
removed message was returned (inbox document ids are unique), and an
immediately repeated call can only return messages whose ids were not
returned by the first call. -/
theorem fetch_messages_destructive (inbox : List Msg) (q q2 : Option Nat)
    (hnodup : (inbox.map Msg.id).Nodup) :
    (∀ m ∈ (fetchMessages inbox q).1, m ∈ inbox) ∧
    (∀ m ∈ inbox, (m ∈ (fetchMessages inbox q).2
        ↔ m.id ∉ (fetchMessages inbox q).1.map Msg.id)) ∧
    (∀ m ∈ inbox, m ∉ (fetchMessages inbox q).2 →
        m ∈ (fetchMessages inbox q).1) ∧
    (∀ m ∈ (fetchMessages (fetchMessages inbox q).2 q2).1,
        m.id ∉ (fetchMessages inbox q).1.map Msg.id) := by
  simp only [fetchMessages]
  refine ⟨?_, ?_, ?_, ?_⟩
  · intro m hm
    exact mem_sortAsc.mp (List.take_subset _ _ hm)
  · intro m hm
    rw [List.mem_filter]
    simp [hm]
  · intro m hm hnot
    rw [List.mem_filter] at hnot
    simp only [hm, true_and, Bool.not_eq_true', decide_eq_false_iff_not,
      not_not] at hnot
    obtain ⟨r, hr, hrid⟩ := List.mem_map.mp hnot
    have hrin : r ∈ inbox := mem_sortAsc.mp (List.take_subset _ _ hr)
    have : r = m := List.inj_on_of_nodup_map hnodup hrin hm hrid
    rw [← this]
    exact hr
  · intro m hm
    have hmrest : m ∈ inbox.filter (fun x =>
        !(decide (x.id ∈ ((sortAsc inbox).take (min (match q with
          | none => 50
          | some 0 => 50
          | some n => n) 100)).map Msg.id))) :=
      mem_sortAsc.mp (List.take_subset _ _ hm)
    have := List.of_mem_filter hmrest
    simpa using this

/-- C9 witness instance: a two-message inbox with `limit=1` — the returned
message came from the inbox, and the other message remains exactly because
its id was not returned. -/
theorem fetch_messages_destructive_witness :
    storedNullLocal ∈ [storedNullLocal, remoteNullLocal] ∧
    (remoteNullLocal
        ∈ (fetchMessages [storedNullLocal, remoteNullLocal] (some 1)).2
      ↔ remoteNullLocal.id
        ∉ (fetchMessages [storedNullLocal, remoteNullLocal]
            (some 1)).1.map Msg.id) := by
  have h := fetch_messages_destructive [storedNullLocal, remoteNullLocal]
    (some 1) none (by decide)
  exact ⟨h.1 storedNullLocal (by decide),
         h.2.1 remoteNullLocal (by decide)⟩

/-! ### C1: single session per account -/

/-- After a successful login the registry entry for the authenticated uid is
unconditionally replaced by the fresh session; the socket-teardown branch
touches only `socketToUser`. -/
theorem login_activeSessions (verify : String → Option String)
    (st : ServerState) (idToken c d : String) (now : Int) (u : String)
    (hT : idToken ≠ "") (hc : c ≠ "") (hd : d ≠ "")
    (hv : verify idToken = some u) :
    (login verify st idToken c d now).1.activeSessions
      = mapSet st.activeSessions u
          { token := idToken, contactId := c, deviceId := d,
            socketId := none, lastActivity := now } := by
  rw [login, if_neg (by simp [hT, hc, hd])]
  simp only [hv]
  cases hmg : mapGet st.activeSessions u with
  | none => rfl
  | some old =>
    by_cases ht : truthyStr old.socketId = true
    · simp [ht]
    · simp [ht]

/-- C1 (confirmed): after account `u` logs in with token `T1` on device `D1`
and then with token `T2` on device `D2`, the session registry holds exactly
the `D2` session for `u` (every registry entry keyed `u` is the `D2`
session), and an authenticated request bearing `T1` is answered with the
401 "Session expired or invalidated by another login" rejection
(`AUTH_INVALID`), not served. -/
theorem login_replaces_session_and_rejects_old_token
    (verify : String → Option String) (st : ServerState)
    (u T1 T2 C D1 D2 : String) (t1 t2 t3 : Int)
    (hv1 : verify T1 = some u) (hv2 : verify T2 = some u)
    (hT1 : T1 ≠ "") (hT2 : T2 ≠ "") (hC : C ≠ "")
    (hD1 : D1 ≠ "") (hD2 : D2 ≠ "") (hne : T1 ≠ T2) :
    mapGet ((login verify st T1 C D1 t1).1).activeSessions u
      = some { token := T1, contactId := C, deviceId := D1,
               socketId := none, lastActivity := t1 } ∧
    mapGet ((login verify ((login verify st T1 C D1 t1).1)
        T2 C D2 t2).1).activeSessions u
      = some { token := T2, contactId := C, deviceId := D2,
               socketId := none, lastActivity := t2 } ∧
    (∀ p ∈ ((login verify ((login verify st T1 C D1 t1).1)
        T2 C D2 t2).1).activeSessions,
      p.1 = u →
        p.2 = ({ token := T2, contactId := C, deviceId := D2,
                 socketId := none, lastActivity := t2 } : Session)) ∧
    (authenticate verify
        ((login verify ((login verify st T1 C D1 t1).1) T2 C D2 t2).1)
        (some ["Bearer", T1]) t3).2 = AuthResult.authInvalid := by
  have hA1first : mapGet ((login verify st T1 C D1 t1).1).activeSessions u
      = some { token := T1, contactId := C, deviceId := D1,
               socketId := none, lastActivity := t1 } := by
    rw [login_activeSessions verify st T1 C D1 t1 u hT1 hC hD1 hv1]
    exact mapGet_mapSet_self _ u _
  have hA2 : ((login verify ((login verify st T1 C D1 t1).1)
      T2 C D2 t2).1).activeSessions
      = mapSet ((login verify st T1 C D1 t1).1).activeSessions u
          { token := T2, contactId := C, deviceId := D2,
            socketId := none, lastActivity := t2 } :=
    login_activeSessions verify _ T2 C D2 t2 u hT2 hC hD2 hv2
  have hget : mapGet ((login verify ((login verify st T1 C D1 t1).1)
      T2 C D2 t2).1).activeSessions u
      = some { token := T2, contactId := C, deviceId := D2,
               socketId := none, lastActivity := t2 } := by
    rw [hA2]
    exact mapGet_mapSet_self _ u _
  refine ⟨hA1first, hget, ?_, ?_⟩
  · intro p hp hk
    rw [hA2] at hp
    have := mapSet_mem_key hp hk
    rw [this]
  · have hx : extractBearer ["Bearer", T1] = some T1 := by
      simp [extractBearer]
    simp only [authenticate, hx, hv1, hget]
    rw [if_pos (Ne.symm hne)]

/-- C1 witness instance: a Firebase verifier accepting two tokens for the
same uid, starting from an empty registry. -/
theorem login_replaces_session_and_rejects_old_token_witness :
    mapGet ((login demoVerify ((login demoVerify demoServer
        "tokA" "alice" "dev1" 1).1) "tokB" "alice" "dev2" 2).1).activeSessions
        "u1"
      = some { token := "tokB", contactId := "alice", deviceId := "dev2",
               socketId := none, lastActivity := 2 } ∧
    (authenticate demoVerify
        ((login demoVerify ((login demoVerify demoServer
          "tokA" "alice" "dev1" 1).1) "tokB" "alice" "dev2" 2).1)
        (some ["Bearer", "tokA"]) 3).2 = AuthResult.authInvalid := by
  have h := login_replaces_session_and_rejects_old_token demoVerify demoServer
    "u1" "tokA" "tokB" "alice" "dev1" "dev2" 1 2 3
    (by decide) (by decide) (by decide) (by decide) (by decide)
    (by decide) (by decide) (by decide)
  exact ⟨h.2.1, h.2.2.2⟩

end SecureLink
